import Mathlib

/-!
Verification of the storm-radar weather alert system (Python) against its
natural-language specification.

The development shallowly embeds the gate and calculator logic of
`src/storm_radar/notifiers.py`, `src/storm_radar/calculators.py` and the
notification step of `src/storm_radar/main.py`:

* Python floats are modelled as rationals (all operations used by the code
  are additions, subtractions, divisions and order comparisons on values
  where rational arithmetic agrees with the source semantics on the
  modelled inputs).
* `datetime` instants are rationals counting seconds; `timedelta(minutes=m)`
  is `60*m`, `timedelta(hours=h)` is `3600*h`.  Calls to `datetime.now()`
  become explicit `now` parameters.
* Python dicts keyed by station/location name are association lists that
  preserve insertion order.
* The HTTP delivery in `TelegramNotifier.send_message` is abstracted by a
  boolean `delivered` outcome; everything the method does to the gate state
  on each outcome is modelled exactly.
-/

namespace StormRadar

/-- Ordered-pair record of the configuration thresholds used by the
calculator and gate (`config.py`). -/
structure Configuration where
  BORA_PRESSURE_DIFF_THRESHOLD : ℚ
  BORA_WIND_THRESHOLD : ℚ
  HIGH_WIND_THRESHOLD : ℚ
  WAVE_HEIGHT_THRESHOLD : ℚ
  WAVE_PERIOD_THRESHOLD : ℚ
  LIGHTNING_DENSITY_THRESHOLD : ℚ
  LIGHTNING_APPROACH_DISTANCE : ℚ
  THERMAL_GRADIENT_THRESHOLD : ℚ
  DATA_RETENTION_HOURS : ℚ
deriving DecidableEq

/-- The default threshold values of `config.py`. -/
def defaultConfig : Configuration :=
  { BORA_PRESSURE_DIFF_THRESHOLD := 10
    BORA_WIND_THRESHOLD := 40
    HIGH_WIND_THRESHOLD := 35
    WAVE_HEIGHT_THRESHOLD := 2
    WAVE_PERIOD_THRESHOLD := 4
    LIGHTNING_DENSITY_THRESHOLD := 10
    LIGHTNING_APPROACH_DISTANCE := 100
    THERMAL_GRADIENT_THRESHOLD := 8
    DATA_RETENTION_HOURS := 12 }

/-- `models.WeatherData`. -/
structure WeatherData where
  station_name : String
  timestamp : ℚ
  temperature : ℚ
  pressure : ℚ
  humidity : ℚ
  wind_speed : ℚ
  wind_direction : ℚ
  visibility : Option ℚ := none
  weather_main : String := ""
  station_type : String := "inland"
deriving DecidableEq

/-- `models.MarineData`. -/
structure MarineData where
  timestamp : ℚ
  wave_height : ℚ
  wave_period : ℚ
  wave_direction : ℚ
  sea_temperature : ℚ
  location : String
deriving DecidableEq

/-- `models.LightningData`. -/
structure LightningData where
  timestamp : ℚ
  lat : ℚ
  lon : ℚ
  distance_km : ℚ
  intensity : ℚ
deriving DecidableEq

/-- The gate-relevant mutable state of `notifiers.TelegramNotifier`
(`last_alert_time`, `last_alert_score`, `min_alert_level`).  The bot token
and chat id play no role in the gate or state updates and are omitted.
`min_alert_level` is stored as the constructor stores it, i.e. already
upper-cased. -/
structure TelegramNotifier where
  last_alert_time : Option ℚ
  last_alert_score : ℚ
  min_alert_level : String
deriving DecidableEq

/-- `self.alert_levels.get(key, default)` for the dict
`{"LOW": 1, "MEDIUM": 2, "HIGH": 3, "CRITICAL": 4}`. -/
def alert_levels (key : String) (default : ℕ) : ℕ :=
  if key = "LOW" then 1
  else if key = "MEDIUM" then 2
  else if key = "HIGH" then 3
  else if key = "CRITICAL" then 4
  else default

/-- Python `str.upper()` on the character data (ASCII case mapping, which
is all the alert-level strings need). -/
def pyUpper (s : String) : String := ⟨s.data.map Char.toUpper⟩

/-- One cooldown test of `should_send_alert`:
`self.last_alert_time is None or now - self.last_alert_time > timedelta(...)`,
with the timedelta given in seconds. -/
def cooldownOver (last : Option ℚ) (now thresholdSec : ℚ) : Bool :=
  match last with
  | none => true
  | some t => decide (now - t > thresholdSec)

/-- `TelegramNotifier.should_send_alert` (notifiers.py lines 32-66).
The sequential early-return structure of the Python method is rendered as a
chain of conditionals; the fall-through to the score-jump test is
preserved. -/
def should_send_alert (n : TelegramNotifier) (now : ℚ) (score : ℚ)
    (alert_level : String) : Bool :=
  let current_level_value := alert_levels (pyUpper alert_level) 0
  let min_level_value := alert_levels n.min_alert_level 2
  if current_level_value < min_level_value then false
  else if alert_level = "CRITICAL" then true
  else if alert_level = "HIGH" ∧ score > 60 ∧
      cooldownOver n.last_alert_time now (20 * 60) = true then true
  else if alert_level = "MEDIUM" ∧ score > 40 ∧
      cooldownOver n.last_alert_time now (45 * 60) = true then true
  else if alert_level = "LOW" ∧ score > 20 ∧
      cooldownOver n.last_alert_time now (2 * 3600) = true then true
  else if score > n.last_alert_score + 25 then true
  else false

/-- `TelegramNotifier.send_message` restricted to its effect on the gate
state: the HTTP round trip is abstracted by the `delivered` outcome.  On
success the method sets `self.last_alert_time = datetime.now()` (the send
instant `sendNow`) and returns `True`; on every failure path it returns
`False` having touched neither gate field. -/
def send_message (n : TelegramNotifier) (sendNow : ℚ) (delivered : Bool) :
    Bool × TelegramNotifier :=
  if delivered then (true, { n with last_alert_time := some sendNow })
  else (false, n)

/-- The notification step of `main.run_enhanced_check` (lines 53-60): query
the gate, and only if it approves, send; only if sending succeeded, update
`last_alert_score`.  `should_send_alert` is a pure function of the state
snapshot, so the gate query itself mutates nothing. -/
def run_notify_step (n : TelegramNotifier) (now sendNow : ℚ) (score : ℚ)
    (alert_level : String) (delivered : Bool) : TelegramNotifier :=
  if should_send_alert n now score alert_level then
    let r := send_message n sendNow delivered
    if r.1 then { r.2 with last_alert_score := score } else r.2
  else n

/-- Decimal digit character of `d % 10`. -/
def pyDigit (d : ℕ) : Char :=
  match d % 10 with
  | 0 => '0' | 1 => '1' | 2 => '2' | 3 => '3' | 4 => '4'
  | 5 => '5' | 6 => '6' | 7 => '7' | 8 => '8' | _ => '9'

/-- Fuelled most-significant-first decimal digit list of a natural. -/
def natDigitsAux : ℕ → ℕ → List Char
  | 0, _ => []
  | fuel + 1, n =>
    if n < 10 then [pyDigit n]
    else natDigitsAux fuel (n / 10) ++ [pyDigit (n % 10)]

/-- Decimal rendering of a natural number (Python `str(n)` for `n ≥ 0`). -/
def natStr (n : ℕ) : String := ⟨natDigitsAux (n + 1) n⟩

/-- Python `f"{x:.1f}"`: one-decimal fixed-point rendering, via rounding
`10*x` to an integer.  Every claim that touches these strings depends only
on which characters can occur in them, not on the rounding direction. -/
def fmt1 (x : ℚ) : String :=
  let n : ℤ := round (x * 10)
  (if n < 0 then "-" else "") ++ natStr (n.natAbs / 10) ++ "." ++ natStr (n.natAbs % 10)

/-- Character-list test: `sub` starts `s`. -/
def hasPre : List Char → List Char → Bool
  | [], _ => true
  | _ :: _, [] => false
  | a :: as, b :: bs => a = b && hasPre as bs

/-- Character-list test: `sub` occurs contiguously in `s` (Python `sub in s`
on strings). -/
def hasSub (sub : List Char) : List Char → Bool
  | [] => hasPre sub []
  | b :: t => hasPre sub (b :: t) || hasSub sub t

/-- Python substring membership `sub in s`. -/
def strIn (sub s : String) : Bool := hasSub sub.data s.data

/-- The NE reference subset of `check_bora_pattern` (stations Trieste,
Nova_Gorica, Rijeka). -/
def neStations (weather_data : List WeatherData) : List WeatherData :=
  weather_data.filter
    (fun d => decide (d.station_name ∈ (["Trieste", "Nova_Gorica", "Rijeka"] : List String)))

/-- The local target subset of `check_bora_pattern` (stations Ancona,
Falconara). -/
def localStations (weather_data : List WeatherData) : List WeatherData :=
  weather_data.filter
    (fun d => decide (d.station_name ∈ (["Ancona", "Falconara"] : List String)))

/-- Python `max` over a list, guarded non-empty at every use site. -/
def pyMax : List ℚ → ℚ
  | [] => 0
  | x :: xs => xs.foldl max x

/-- Python `sum(l)/len(l)`, guarded non-empty at every use site. -/
def avgQ (l : List ℚ) : ℚ := l.sum / l.length

/-- `EnhancedAlertCalculator.check_bora_pattern` (calculators.py lines
62-97). -/
def check_bora_pattern (cfg : Configuration) (weather_data : List WeatherData) :
    Bool × String :=
  let ne_stations := neStations weather_data
  let local_stations := localStations weather_data
  if ne_stations = [] ∨ local_stations = [] then (false, "")
  else
    let pressure_diff :=
      avgQ (ne_stations.map (·.pressure)) - avgQ (local_stations.map (·.pressure))
    let max_ne_wind := pyMax (ne_stations.map (·.wind_speed))
    let ne_wind_from_correct_direction := ne_stations.any
      (fun s => decide (s.wind_speed > 30) && decide (0 ≤ s.wind_direction) &&
        decide (s.wind_direction ≤ 90))
    if pressure_diff > cfg.BORA_PRESSURE_DIFF_THRESHOLD ∧
        max_ne_wind > cfg.BORA_WIND_THRESHOLD ∧
        ne_wind_from_correct_direction = true then
      (true, "BORA PATTERN DETECTED: Pressure diff " ++ fmt1 pressure_diff ++
        "hPa, NE winds " ++ fmt1 max_ne_wind ++ "km/h")
    else (false, "")

/-- The `marine_alerts` fragment list built by the marine loop of
`calculate_enhanced_alerts` (lines 120-129): up to two fragments per
reading, in reading order. -/
def marineAlerts (cfg : Configuration) (marine_data : List MarineData) :
    List String :=
  marine_data.foldl (fun acc d =>
    let acc1 := if d.wave_period < cfg.WAVE_PERIOD_THRESHOLD
      then acc ++ [d.location ++ ": Short wave period " ++ fmt1 d.wave_period ++ "s"]
      else acc
    if d.wave_height > cfg.WAVE_HEIGHT_THRESHOLD
      then acc1 ++ [d.location ++ ": High waves " ++ fmt1 d.wave_height ++ "m"]
      else acc1) []

/-- The `nearby_strikes` filter of `calculate_enhanced_alerts` (lines
138-146): strikes within the last 10 minutes and inside the approach
distance. -/
def nearbyStrikes (cfg : Configuration) (now : ℚ)
    (lightning_data : List LightningData) : List LightningData :=
  lightning_data.filter (fun s =>
    decide (s.timestamp > now - 10 * 60) &&
    decide (s.distance_km < cfg.LIGHTNING_APPROACH_DISTANCE))

/-- `EnhancedAlertCalculator._calculate_traditional_patterns` (lines
191-208). -/
def calculate_traditional_patterns (cfg : Configuration)
    (weather_data : List WeatherData) : ℚ :=
  weather_data.foldl (fun score d =>
    let s1 := if d.wind_speed > cfg.HIGH_WIND_THRESHOLD then score + 10 else score
    let s2 := if d.weather_main = "Thunderstorm" ∨ d.weather_main = "Rain"
      then s1 + 15 else s1
    if d.humidity > 85 then s2 + 5 else s2) 0

/-- `coastal_temps` of the thermal block (line 156). -/
def coastalTemps (weather_data : List WeatherData) : List ℚ :=
  (weather_data.filter (fun d => decide (d.station_type = "coastal"))).map (·.temperature)

/-- `inland_temps` of the thermal block (line 157). -/
def inlandTemps (weather_data : List WeatherData) : List ℚ :=
  (weather_data.filter (fun d => decide (d.station_type = "inland"))).map (·.temperature)

/-- The thermal `gradient` (line 162). -/
def thermalGradient (weather_data : List WeatherData) : ℚ :=
  |avgQ (inlandTemps weather_data) - avgQ (coastalTemps weather_data)|

/-- Whether the marine block fires (non-empty input and a non-empty
fragment list). -/
def marineHit (cfg : Configuration) (marine_data : List MarineData) : Bool :=
  decide (marine_data ≠ []) && decide (marineAlerts cfg marine_data ≠ [])

/-- Whether the lightning block fires. -/
def lightningHit (cfg : Configuration) (now : ℚ)
    (lightning_data : List LightningData) : Bool :=
  decide (lightning_data ≠ []) &&
  decide (((nearbyStrikes cfg now lightning_data).length : ℚ) >
    cfg.LIGHTNING_DENSITY_THRESHOLD)

/-- Whether the thermal block fires. -/
def thermalHit (cfg : Configuration) (weather_data : List WeatherData) : Bool :=
  decide (coastalTemps weather_data ≠ []) && decide (inlandTemps weather_data ≠ []) &&
  decide (thermalGradient weather_data > cfg.THERMAL_GRADIENT_THRESHOLD)

/-- The marine reason string appended when the marine block fires
(line 133). -/
def marineReason (cfg : Configuration) (marine_data : List MarineData) : String :=
  "🌊 MARINE: " ++ String.intercalate "; " (marineAlerts cfg marine_data)

/-- The lightning reason string appended when the lightning block fires
(lines 151-153). -/
def lightningReason (cfg : Configuration) (now : ℚ)
    (lightning_data : List LightningData) : String :=
  let nearby := nearbyStrikes cfg now lightning_data
  "⚡ LIGHTNING: Lightning approaching: " ++ natStr nearby.length ++
    " strikes, avg distance " ++ fmt1 (avgQ (nearby.map (·.distance_km))) ++ "km"

/-- The thermal reason string appended when the thermal block fires
(lines 166-168). -/
def thermalReason (weather_data : List WeatherData) : String :=
  "🌡️ THERMAL: High thermal gradient: " ++ fmt1 (thermalGradient weather_data) ++
    "°C difference (Inland: " ++ fmt1 (avgQ (inlandTemps weather_data)) ++
    "°C, Coastal: " ++ fmt1 (avgQ (coastalTemps weather_data)) ++ "°C)"

/-- The Bora reason string appended when the Bora pattern is detected
(line 115). -/
def boraReason (cfg : Configuration) (weather_data : List WeatherData) : String :=
  "🌪️ BORA: " ++ (check_bora_pattern cfg weather_data).2

/-- The raw additive score of `calculate_enhanced_alerts` before the final
clamp: the sum of the Bora, marine, lightning, thermal and traditional
contributions. -/
def rawScore (cfg : Configuration) (now : ℚ) (weather_data : List WeatherData)
    (marine_data : List MarineData) (lightning_data : List LightningData) : ℚ :=
  (if (check_bora_pattern cfg weather_data).1 then 60 else 0) +
  (if marineHit cfg marine_data then 25 else 0) +
  (if lightningHit cfg now lightning_data then 30 else 0) +
  (if thermalHit cfg weather_data then 15 else 0) +
  calculate_traditional_patterns cfg weather_data

/-- `EnhancedAlertCalculator.calculate_enhanced_alerts` (lines 99-189),
returning `(final_score, reasons, alert_level)`.  The mutable `score`,
`reasons` and `alert_level` of the Python body become staged `let`
bindings. -/
def calculate_enhanced_alerts (cfg : Configuration) (now : ℚ)
    (weather_data : List WeatherData) (marine_data : List MarineData)
    (lightning_data : List LightningData) : ℚ × List String × String :=
  let bora := check_bora_pattern cfg weather_data
  let score1 : ℚ := if bora.1 then 0 + 60 else 0
  let reasons1 : List String := if bora.1 then [boraReason cfg weather_data] else []
  let alert_level : String := if bora.1 then "CRITICAL" else "LOW"
  let score2 := if marineHit cfg marine_data then score1 + 25 else score1
  let reasons2 := if marineHit cfg marine_data
    then reasons1 ++ [marineReason cfg marine_data] else reasons1
  let score3 := if lightningHit cfg now lightning_data then score2 + 30 else score2
  let reasons3 := if lightningHit cfg now lightning_data
    then reasons2 ++ [lightningReason cfg now lightning_data] else reasons2
  let score4 := if thermalHit cfg weather_data then score3 + 15 else score3
  let reasons4 := if thermalHit cfg weather_data
    then reasons3 ++ [thermalReason weather_data] else reasons3
  let score5 := score4 + calculate_traditional_patterns cfg weather_data
  let final_level := if alert_level ≠ "CRITICAL" then
      (if score5 > 70 then "HIGH"
       else if score5 > 40 then "MEDIUM"
       else if score5 > 20 then "LOW"
       else alert_level)
    else alert_level
  (min score5 100, reasons4, final_level)

/-- `EnhancedAlertCalculator.get_enhanced_eta` (lines 210-225). -/
def get_enhanced_eta (reasons : List String) (bora_detected : Bool) : String :=
  if bora_detected then "15-45 minutes (BORA - IMMEDIATE DANGER)"
  else if reasons.any (fun reason => strIn "LIGHTNING" reason) then "30-60 minutes"
  else if reasons.any (fun reason => strIn "MARINE" reason) then "45-90 minutes"
  else if reasons.any (fun reason => strIn "Gubbio" reason || strIn "Fabriano" reason)
    then "1-2 hours"
  else "2-3 hours"

/-- Append `v` to the list stored under `k`, creating the key at the end on
first use — the insertion-order semantics of the Python dict pattern
`if k not in m: m[k] = []` followed by `m[k].append(v)`. -/
def dictAppend {α : Type} (m : List (String × List α)) (k : String) (v : α) :
    List (String × List α) :=
  match m with
  | [] => [(k, [v])]
  | (k', l) :: rest =>
    if k' = k then (k', l ++ [v]) :: rest else (k', l) :: dictAppend rest k v

/-- Python dict lookup `m.get(k)` on the association-list model. -/
def dictLookup {α : Type} (m : List (String × List α)) (k : String) :
    Option (List α) :=
  match m with
  | [] => none
  | (k', l) :: rest => if k' = k then some l else dictLookup rest k

/-- The three historical streams of `EnhancedAlertCalculator`. -/
structure EnhancedAlertCalculator where
  historical_weather : List (String × List WeatherData)
  historical_marine : List (String × List MarineData)
  historical_lightning : List LightningData
deriving DecidableEq

/-- `EnhancedAlertCalculator.store_data` (calculators.py lines 22-60):
append all incoming readings, then prune every stream against
`cutoff_time = now - timedelta(hours=DATA_RETENTION_HOURS)`, keeping only
readings with `timestamp > cutoff_time`. -/
def store_data (cfg : Configuration) (st : EnhancedAlertCalculator) (now : ℚ)
    (weather_data : List WeatherData) (marine_data : List MarineData)
    (lightning_data : List LightningData) : EnhancedAlertCalculator :=
  let hw := weather_data.foldl (fun m d => dictAppend m d.station_name d)
    st.historical_weather
  let hm := marine_data.foldl (fun m d => dictAppend m d.location d)
    st.historical_marine
  let hl := st.historical_lightning ++ lightning_data
  let cutoff_time := now - 3600 * cfg.DATA_RETENTION_HOURS
  { historical_weather :=
      hw.map (fun e => (e.1, e.2.filter (fun d => decide (d.timestamp > cutoff_time))))
    historical_marine :=
      hm.map (fun e => (e.1, e.2.filter (fun d => decide (d.timestamp > cutoff_time))))
    historical_lightning := hl.filter (fun d => decide (d.timestamp > cutoff_time)) }

/-- A sample NE-reference reading (pressure 1030 hPa, 50 km/h wind from
45°), used by concrete witnesses. -/
def trieste : WeatherData :=
  { station_name := "Trieste", timestamp := 0, temperature := 10, pressure := 1030,
    humidity := 50, wind_speed := 50, wind_direction := 45 }

/-- A sample local target reading (pressure 1000 hPa), used by concrete
witnesses. -/
def anconaStation : WeatherData :=
  { station_name := "Ancona", timestamp := 0, temperature := 12, pressure := 1000,
    humidity := 50, wind_speed := 5, wind_direction := 200, station_type := "coastal" }

/-- A sample marine reading breaching both wave thresholds, used by
concrete witnesses. -/
def marineSampleA : MarineData :=
  { timestamp := 0, wave_height := 3, wave_period := 2, wave_direction := 0,
    sea_temperature := 15, location := "Ancona_Bay" }

/-- A second sample marine reading breaching both wave thresholds, used by
concrete witnesses. -/
def marineSampleB : MarineData :=
  { timestamp := 0, wave_height := 5, wave_period := 1, wave_direction := 0,
    sea_temperature := 15, location := "Falconara_Offshore" }

/-- A weather reading far older than the default retention horizon, used
by concrete witnesses. -/
def staleReading : WeatherData :=
  { station_name := "Ancona", timestamp := -50000, temperature := 10, pressure := 1000,
    humidity := 50, wind_speed := 5, wind_direction := 0 }

/-- A weather reading inside the retention horizon for the same station,
used by concrete witnesses. -/
def freshReading : WeatherData :=
  { station_name := "Ancona", timestamp := 0, temperature := 11, pressure := 1001,
    humidity := 51, wind_speed := 6, wind_direction := 10 }

/-- The freshly-constructed calculator state (all streams empty). -/
def emptyCalc : EnhancedAlertCalculator :=
  { historical_weather := [], historical_marine := [], historical_lightning := [] }

/-! ### Theorems -/

/-- Looking a key up after appending to it yields the previous bucket
(empty for a fresh key) extended with the new value. -/
theorem dictLookup_dictAppend_self {α : Type} (m : List (String × List α))
    (k : String) (v : α) :
    dictLookup (dictAppend m k v) k = some (((dictLookup m k).getD []) ++ [v]) := by
  induction m with
  | nil => simp [dictAppend, dictLookup]
  | cons e rest ih =>
    obtain ⟨k', l⟩ := e
    by_cases hk : k' = k
    · subst hk
      simp [dictAppend, dictLookup]
    · simp [dictAppend, dictLookup, hk, ih]

/-- Per-bucket transformation commutes with lookup. -/
theorem dictLookup_map {α β : Type} (f : List α → List β) (k : String) :
    ∀ m : List (String × List α),
      dictLookup (m.map (fun e => (e.1, f e.2))) k = (dictLookup m k).map f := by
  intro m
  induction m with
  | nil => simp [dictLookup]
  | cons e rest ih =>
    obtain ⟨k', l⟩ := e
    by_cases hk : k' = k
    · subst hk
      simp [dictLookup]
    · simp [dictLookup, hk, ih]

/-- Claim C7: after every `store_data` call, every reading retained in the
three streams is strictly newer than `now` minus the retention horizon
(pruning runs on every store), and in particular storing a reading older
than the horizon and then a fresh reading for the same (previously absent)
key leaves exactly the fresh reading under that key. -/
theorem C7_retention (cfg : Configuration) (st : EnhancedAlertCalculator)
    (now1 now2 : ℚ) (old fresh : WeatherData) (k : String)
    (hk : dictLookup st.historical_weather k = none)
    (hok : old.station_name = k) (hfk : fresh.station_name = k)
    (hold : old.timestamp ≤ now2 - 3600 * cfg.DATA_RETENTION_HOURS)
    (hfresh : fresh.timestamp > now2 - 3600 * cfg.DATA_RETENTION_HOURS) :
    (∀ (st' : EnhancedAlertCalculator) (now : ℚ) (w : List WeatherData)
        (m : List MarineData) (l : List LightningData),
      (∀ p ∈ (store_data cfg st' now w m l).historical_weather,
        ∀ d ∈ p.2, d.timestamp > now - 3600 * cfg.DATA_RETENTION_HOURS) ∧
      (∀ p ∈ (store_data cfg st' now w m l).historical_marine,
        ∀ d ∈ p.2, d.timestamp > now - 3600 * cfg.DATA_RETENTION_HOURS) ∧
      (∀ d ∈ (store_data cfg st' now w m l).historical_lightning,
        d.timestamp > now - 3600 * cfg.DATA_RETENTION_HOURS)) ∧
    dictLookup (store_data cfg (store_data cfg st now1 [old] [] [])
        now2 [fresh] [] []).historical_weather k = some [fresh] := by
  constructor
  · intro st' now w m l
    refine ⟨?_, ?_, ?_⟩
    · intro p hp d hd
      simp only [store_data, List.mem_map] at hp
      obtain ⟨e, he, rfl⟩ := hp
      simp only [List.mem_filter, decide_eq_true_eq] at hd
      exact hd.2
    · intro p hp d hd
      simp only [store_data, List.mem_map] at hp
      obtain ⟨e, he, rfl⟩ := hp
      simp only [List.mem_filter, decide_eq_true_eq] at hd
      exact hd.2
    · intro d hd
      simp only [store_data, List.mem_filter, decide_eq_true_eq] at hd
      exact hd.2
  · have h1 : (store_data cfg st now1 [old] [] []).historical_weather =
        (dictAppend st.historical_weather k old).map
          (fun e => (e.1, e.2.filter
            (fun d => decide (d.timestamp > now1 - 3600 * cfg.DATA_RETENTION_HOURS)))) := by
      simp [store_data, hok]
    have h2 : dictLookup (store_data cfg st now1 [old] [] []).historical_weather k =
        some ((([] : List WeatherData) ++ [old]).filter
          (fun d => decide (d.timestamp > now1 - 3600 * cfg.DATA_RETENTION_HOURS))) := by
      rw [h1, dictLookup_map, dictLookup_dictAppend_self, hk]
      rfl
    have h3 : (store_data cfg (store_data cfg st now1 [old] [] []) now2
        [fresh] [] []).historical_weather =
        (dictAppend (store_data cfg st now1 [old] [] []).historical_weather k fresh).map
          (fun e => (e.1, e.2.filter
            (fun d => decide (d.timestamp > now2 - 3600 * cfg.DATA_RETENTION_HOURS)))) := by
      simp [store_data, hfk]
    rw [h3, dictLookup_map, dictLookup_dictAppend_self, h2]
    have hp2old : decide (old.timestamp > now2 - 3600 * cfg.DATA_RETENTION_HOURS) = false := by
      simp [not_lt.2 hold]
    have hp2fresh : decide (fresh.timestamp > now2 - 3600 * cfg.DATA_RETENTION_HOURS) = true := by
      simp [hfresh]
    by_cases hp1 : old.timestamp > now1 - 3600 * cfg.DATA_RETENTION_HOURS
    · simp [hp1, hp2old, hp2fresh, List.filter]
    · simp [hp1, hp2fresh, List.filter]

/-- Witness for C7: a reading 50000 s old is pruned when a fresh reading
for the same station is stored 12 retention-hours later. -/
theorem C7_retention_witness :
    dictLookup emptyCalc.historical_weather "Ancona" = none ∧
    staleReading.station_name = "Ancona" ∧
    freshReading.station_name = "Ancona" ∧
    staleReading.timestamp ≤ 0 - 3600 * defaultConfig.DATA_RETENTION_HOURS ∧
    freshReading.timestamp > 0 - 3600 * defaultConfig.DATA_RETENTION_HOURS ∧
    dictLookup (store_data defaultConfig
        (store_data defaultConfig emptyCalc 0 [staleReading] [] [])
        0 [freshReading] [] []).historical_weather "Ancona" = some [freshReading] := by
  have h1 : dictLookup emptyCalc.historical_weather "Ancona" = none := rfl
  have h2 : staleReading.station_name = "Ancona" := rfl
  have h3 : freshReading.station_name = "Ancona" := rfl
  have h4 : staleReading.timestamp ≤ 0 - 3600 * defaultConfig.DATA_RETENTION_HOURS := by
    norm_num [staleReading, defaultConfig]
  have h5 : freshReading.timestamp > 0 - 3600 * defaultConfig.DATA_RETENTION_HOURS := by
    norm_num [freshReading, defaultConfig]
  exact ⟨h1, h2, h3, h4, h5,
    (C7_retention defaultConfig emptyCalc 0 0 staleReading freshReading "Ancona"
      h1 h2 h3 h4 h5).2⟩

/-- The traditional-pattern fold never decreases its accumulator. -/
theorem foldl_traditional_le (cfg : Configuration) :
    ∀ (l : List WeatherData) (acc : ℚ),
      acc ≤ l.foldl (fun score d =>
        let s1 := if d.wind_speed > cfg.HIGH_WIND_THRESHOLD then score + 10 else score
        let s2 := if d.weather_main = "Thunderstorm" ∨ d.weather_main = "Rain"
          then s1 + 15 else s1
        if d.humidity > 85 then s2 + 5 else s2) acc := by
  intro l
  induction l with
  | nil => intro acc; simp
  | cons d t ih =>
    intro acc
    rw [List.foldl_cons]
    refine le_trans ?_ (ih _)
    dsimp only
    split_ifs <;> linarith

/-- The traditional-pattern score is a sum of non-negative bonuses. -/
theorem traditional_nonneg (cfg : Configuration) (w : List WeatherData) :
    0 ≤ calculate_traditional_patterns cfg w := by
  unfold calculate_traditional_patterns
  exact foldl_traditional_le cfg w 0

/-- The final score of `calculate_enhanced_alerts` is the clamp of the raw
additive sum. -/
theorem calc_score_eq (cfg : Configuration) (now : ℚ) (w : List WeatherData)
    (m : List MarineData) (l : List LightningData) :
    (calculate_enhanced_alerts cfg now w m l).1 = min (rawScore cfg now w m l) 100 := by
  simp only [calculate_enhanced_alerts, rawScore]
  split_ifs <;> congr 1 <;> ring

/-- The reasons list of `calculate_enhanced_alerts` is the concatenation of
the four optional tagged reasons, in block order. -/
theorem calc_reasons_eq (cfg : Configuration) (now : ℚ) (w : List WeatherData)
    (m : List MarineData) (l : List LightningData) :
    (calculate_enhanced_alerts cfg now w m l).2.1 =
      (if (check_bora_pattern cfg w).1 then [boraReason cfg w] else []) ++
      (if marineHit cfg m then [marineReason cfg m] else []) ++
      (if lightningHit cfg now l then [lightningReason cfg now l] else []) ++
      (if thermalHit cfg w then [thermalReason w] else []) := by
  simp only [calculate_enhanced_alerts]
  split_ifs <;> simp

/-- The CRITICAL level forced by the Bora branch survives the later
score-based level assignment. -/
theorem calc_level_critical_of_bora (cfg : Configuration) (now : ℚ)
    (w : List WeatherData) (m : List MarineData) (l : List LightningData)
    (h : (check_bora_pattern cfg w).1 = true) :
    (calculate_enhanced_alerts cfg now w m l).2.2 = "CRITICAL" := by
  simp [calculate_enhanced_alerts, h]

/-- Claim C3: `check_bora_pattern` detects exactly when both station
subsets are non-empty, the mean NE-reference pressure exceeds the mean
local pressure by strictly more than the configured differential, the
maximum reference wind speed strictly exceeds the configured wind
threshold, and some reference reading has wind above 30 km/h from a
direction in [0°, 90°]; with an empty subset it reports not-detected. -/
theorem C3_bora_detection_iff (cfg : Configuration) (weather_data : List WeatherData) :
    (check_bora_pattern cfg weather_data).1 = true ↔
    (neStations weather_data ≠ [] ∧ localStations weather_data ≠ [] ∧
     avgQ ((neStations weather_data).map (·.pressure)) -
       avgQ ((localStations weather_data).map (·.pressure)) >
       cfg.BORA_PRESSURE_DIFF_THRESHOLD ∧
     pyMax ((neStations weather_data).map (·.wind_speed)) > cfg.BORA_WIND_THRESHOLD ∧
     ∃ s ∈ neStations weather_data,
       s.wind_speed > 30 ∧ 0 ≤ s.wind_direction ∧ s.wind_direction ≤ 90) := by
  simp only [check_bora_pattern]
  split_ifs with h1 h2
  · simp only [false_iff]
    rintro ⟨hne, hloc, -⟩
    rcases h1 with h | h <;> simp_all
  · push_neg at h1
    obtain ⟨hcond1, hcond2, hcond3⟩ := h2
    simp only [true_iff]
    refine ⟨h1.1, h1.2, hcond1, hcond2, ?_⟩
    rw [List.any_eq_true] at hcond3
    obtain ⟨s, hs, hp⟩ := hcond3
    simp only [Bool.and_eq_true, decide_eq_true_eq] at hp
    exact ⟨s, hs, hp.1.1, hp.1.2, hp.2⟩
  · simp only [false_iff]
    rintro ⟨hne, hloc, hp, hw, s, hs, hws, hd0, hd90⟩
    exact h2 ⟨hp, hw, by
      rw [List.any_eq_true]
      exact ⟨s, hs, by simp [hws, hd0, hd90]⟩⟩

/-- Claim C2: whenever the Bora pattern is detected, the returned level is
CRITICAL (never downgraded by the score-based assignment) and the final
score lies in [60, 100], whatever the marine, lightning and remaining
weather inputs contribute. -/
theorem C2_bora_forces_critical (cfg : Configuration) (now : ℚ)
    (w : List WeatherData) (m : List MarineData) (l : List LightningData)
    (h : (check_bora_pattern cfg w).1 = true) :
    (calculate_enhanced_alerts cfg now w m l).2.2 = "CRITICAL" ∧
    60 ≤ (calculate_enhanced_alerts cfg now w m l).1 ∧
    (calculate_enhanced_alerts cfg now w m l).1 ≤ 100 := by
  have hs := calc_score_eq cfg now w m l
  have htrad := traditional_nonneg cfg w
  refine ⟨calc_level_critical_of_bora cfg now w m l h, ?_, ?_⟩
  · rw [hs]
    have hraw : (60 : ℚ) ≤ rawScore cfg now w m l := by
      unfold rawScore
      rw [if_pos h]
      split_ifs <;> linarith
    exact le_min hraw (by norm_num)
  · rw [hs]
    exact min_le_right _ _

/-- Witness for C2: a 30 hPa pressure differential with 50 km/h NE wind
from 45° triggers the Bora pattern and yields a CRITICAL alert with score
in [60, 100]. -/
theorem C2_bora_forces_critical_witness :
    (check_bora_pattern defaultConfig [trieste, anconaStation]).1 = true ∧
    ((calculate_enhanced_alerts defaultConfig 0 [trieste, anconaStation] [] []).2.2 = "CRITICAL" ∧
     60 ≤ (calculate_enhanced_alerts defaultConfig 0 [trieste, anconaStation] [] []).1 ∧
     (calculate_enhanced_alerts defaultConfig 0 [trieste, anconaStation] [] []).1 ≤ 100) := by
  have hb : (check_bora_pattern defaultConfig [trieste, anconaStation]).1 = true := by
    simp [check_bora_pattern, neStations, localStations, pyMax, avgQ, defaultConfig,
      trieste, anconaStation]
    norm_num
  exact ⟨hb, C2_bora_forces_critical defaultConfig 0 [trieste, anconaStation] [] [] hb⟩

/-- Claim C8: for every input, the final score is in [0, 100] and equals
exactly the clamp `min(raw, 100)` of the raw sum, which is itself a sum of
non-negative contributions. -/
theorem C8_score_bounds (cfg : Configuration) (now : ℚ) (w : List WeatherData)
    (m : List MarineData) (l : List LightningData) :
    0 ≤ (calculate_enhanced_alerts cfg now w m l).1 ∧
    (calculate_enhanced_alerts cfg now w m l).1 ≤ 100 ∧
    (calculate_enhanced_alerts cfg now w m l).1 = min (rawScore cfg now w m l) 100 ∧
    0 ≤ rawScore cfg now w m l := by
  have hs := calc_score_eq cfg now w m l
  have htrad := traditional_nonneg cfg w
  have hraw : 0 ≤ rawScore cfg now w m l := by
    unfold rawScore
    split_ifs <;> linarith
  exact ⟨hs ▸ le_min hraw (by norm_num), hs ▸ min_le_right _ _, hs, hraw⟩

/-- The marine fragment fold distributes over its accumulator. -/
theorem marine_foldl_acc (cfg : Configuration) :
    ∀ (t : List MarineData) (acc : List String),
      t.foldl (fun acc d =>
        let acc1 := if d.wave_period < cfg.WAVE_PERIOD_THRESHOLD
          then acc ++ [d.location ++ ": Short wave period " ++ fmt1 d.wave_period ++ "s"]
          else acc
        if d.wave_height > cfg.WAVE_HEIGHT_THRESHOLD
          then acc1 ++ [d.location ++ ": High waves " ++ fmt1 d.wave_height ++ "m"]
          else acc1) acc =
      acc ++ t.foldl (fun acc d =>
        let acc1 := if d.wave_period < cfg.WAVE_PERIOD_THRESHOLD
          then acc ++ [d.location ++ ": Short wave period " ++ fmt1 d.wave_period ++ "s"]
          else acc
        if d.wave_height > cfg.WAVE_HEIGHT_THRESHOLD
          then acc1 ++ [d.location ++ ": High waves " ++ fmt1 d.wave_height ++ "m"]
          else acc1) [] := by
  intro t
  induction t with
  | nil => intro acc; simp
  | cons d t ih =>
    intro acc
    rw [List.foldl_cons, List.foldl_cons, ih]
    conv_rhs => rw [ih]
    rw [← List.append_assoc]
    congr 1
    split_ifs <;> simp

/-- The marine fragment list of a cons splits into the fragments of the
head and the fragments of the tail. -/
theorem marineAlerts_cons (cfg : Configuration) (d : MarineData) (t : List MarineData) :
    marineAlerts cfg (d :: t) = marineAlerts cfg [d] ++ marineAlerts cfg t := by
  simp only [marineAlerts, List.foldl_cons, List.foldl_nil]
  rw [marine_foldl_acc]

/-- A single marine reading contributes a fragment exactly when it breaches
one of the two wave thresholds. -/
theorem marineAlerts_single_iff (cfg : Configuration) (d : MarineData) :
    marineAlerts cfg [d] ≠ [] ↔
    (d.wave_period < cfg.WAVE_PERIOD_THRESHOLD ∨
     d.wave_height > cfg.WAVE_HEIGHT_THRESHOLD) := by
  simp only [marineAlerts, List.foldl_cons, List.foldl_nil]
  split_ifs with h1 h2 <;> simp_all

/-- The marine fragment list is non-empty exactly when some reading
breaches a wave threshold. -/
theorem marineAlerts_ne_nil_iff (cfg : Configuration) :
    ∀ m : List MarineData, marineAlerts cfg m ≠ [] ↔
      ∃ d ∈ m, d.wave_period < cfg.WAVE_PERIOD_THRESHOLD ∨
        d.wave_height > cfg.WAVE_HEIGHT_THRESHOLD := by
  intro m
  induction m with
  | nil => simp [marineAlerts]
  | cons d t ih =>
    rw [marineAlerts_cons]
    rw [ne_eq, List.append_eq_nil, not_and_or, ← ne_eq, ← ne_eq]
    rw [marineAlerts_single_iff, ih]
    constructor
    · rintro (hf | ⟨e, he, hef⟩)
      · exact ⟨d, by simp, hf⟩
      · exact ⟨e, List.mem_cons_of_mem d he, hef⟩
    · rintro ⟨e, he, hef⟩
      rcases List.mem_cons.1 he with rfl | he'
      · exact Or.inl hef
      · exact Or.inr ⟨e, he', hef⟩

/-- Claim C1 (code bug): the spec and the repository's own boundary test
(`test_notifiers.py`, "Exactly 20 minutes" → `True`) state that the
cooldown comparison is inclusive at the boundary, but
`should_send_alert` uses a strict `>` on the elapsed time, so with the
prior notification exactly 20 minutes ago (HIGH, score 65, floor LOW, no
score jump available because the prior notified score is also 65) the gate
returns `false`; likewise at exactly 45 minutes for MEDIUM and exactly 2
hours for LOW.  One second past each boundary it returns `true`. -/
theorem C1_exact_boundary_evaluates_false :
    should_send_alert ⟨some 0, 65, "LOW"⟩ 1200 65 "HIGH" = false ∧
    should_send_alert ⟨some 0, 45, "LOW"⟩ 2700 45 "MEDIUM" = false ∧
    should_send_alert ⟨some 0, 25, "LOW"⟩ 7200 25 "LOW" = false ∧
    should_send_alert ⟨some 0, 65, "LOW"⟩ 1201 65 "HIGH" = true ∧
    should_send_alert ⟨some 0, 45, "LOW"⟩ 2701 45 "MEDIUM" = true ∧
    should_send_alert ⟨some 0, 25, "LOW"⟩ 7201 25 "LOW" = true := by
  refine ⟨?_, ?_, ?_, ?_, ?_, ?_⟩ <;>
    · simp [should_send_alert, cooldownOver, alert_levels, pyUpper]
      norm_num

/-- Claim C4: the minimum-level hard floor dominates every other rule:
whenever the ordinal of the current alert level is strictly below the
ordinal of the configured minimum level, `should_send_alert` returns
`false` for every score, in particular also when the score exceeds the
prior-notified score by more than 25. -/
theorem C4_min_level_floor_dominates (n : TelegramNotifier) (now score : ℚ)
    (alert_level : String)
    (h : alert_levels (pyUpper alert_level) 0 < alert_levels n.min_alert_level 2) :
    should_send_alert n now score alert_level = false := by
  unfold should_send_alert
  simp only [if_pos h]

/-- Witness for C4: level LOW against configured minimum HIGH is
suppressed even though the score jumped from 0 to 1000. -/
theorem C4_min_level_floor_dominates_witness :
    alert_levels (pyUpper "LOW") 0 < alert_levels "HIGH" 2 ∧
    should_send_alert ⟨some 0, 0, "HIGH"⟩ 3600 1000 "LOW" = false :=
  ⟨by decide, C4_min_level_floor_dominates ⟨some 0, 0, "HIGH"⟩ 3600 1000 "LOW" (by decide)⟩

/-- Claim C5: a CRITICAL alert is approved unconditionally for every valid
configured minimum level, every prior state (including a prior
notification at the current instant) and every score: no cooldown, score
threshold or floor blocks it. -/
theorem C5_critical_always_sends (n : TelegramNotifier) (now score : ℚ)
    (h : n.min_alert_level = "LOW" ∨ n.min_alert_level = "MEDIUM" ∨
      n.min_alert_level = "HIGH" ∨ n.min_alert_level = "CRITICAL") :
    should_send_alert n now score "CRITICAL" = true := by
  have hup : pyUpper "CRITICAL" = "CRITICAL" := by decide
  unfold should_send_alert
  rcases h with h | h | h | h <;> simp [alert_levels, hup, h]

/-- Witness for C5: CRITICAL is approved with the strictest minimum level
and a prior notification at the very same instant. -/
theorem C5_critical_always_sends_witness :
    ((⟨some 5, 90, "CRITICAL"⟩ : TelegramNotifier).min_alert_level = "LOW" ∨
     (⟨some 5, 90, "CRITICAL"⟩ : TelegramNotifier).min_alert_level = "MEDIUM" ∨
     (⟨some 5, 90, "CRITICAL"⟩ : TelegramNotifier).min_alert_level = "HIGH" ∨
     (⟨some 5, 90, "CRITICAL"⟩ : TelegramNotifier).min_alert_level = "CRITICAL") ∧
    should_send_alert ⟨some 5, 90, "CRITICAL"⟩ 5 0 "CRITICAL" = true :=
  ⟨by simp, C5_critical_always_sends ⟨some 5, 90, "CRITICAL"⟩ 5 0 (by simp)⟩

/-- Claim C6: delivery-failure atomicity.  When the sink reports failure
the notification step leaves the gate state untouched (so the next cycle
behaves as if nothing was sent), `send_message` itself changes nothing on
failure, and on confirmed success the step updates exactly the
last-notification time (to the send instant) and score.  The gate query
`should_send_alert` is a pure function of the state snapshot by
construction. -/
theorem C6_delivery_failure_atomic (n : TelegramNotifier) (now sendNow score : ℚ)
    (alert_level : String) :
    run_notify_step n now sendNow score alert_level false = n ∧
    (send_message n sendNow false).2 = n ∧
    run_notify_step n now sendNow score alert_level true =
      (if should_send_alert n now score alert_level
       then { n with last_alert_time := some sendNow, last_alert_score := score }
       else n) := by
  refine ⟨?_, rfl, ?_⟩ <;> simp [run_notify_step, send_message]

/-- Claim C9: when at least one marine reading breaches a wave threshold,
the marine block contributes a flat 25 points exactly once — however many
readings (or fragments) are flagged — and appends exactly one combined
MARINE reason, which joins all per-reading fragments with `; `. -/
theorem C9_marine_adds_25_once (cfg : Configuration) (now : ℚ)
    (w : List WeatherData) (m : List MarineData) (l : List LightningData)
    (h : ∃ d ∈ m, d.wave_period < cfg.WAVE_PERIOD_THRESHOLD ∨
      d.wave_height > cfg.WAVE_HEIGHT_THRESHOLD) :
    (calculate_enhanced_alerts cfg now w m l).1 =
      min ((if (check_bora_pattern cfg w).1 then 60 else 0) + 25 +
        (if lightningHit cfg now l then 30 else 0) +
        (if thermalHit cfg w then 15 else 0) +
        calculate_traditional_patterns cfg w) 100 ∧
    (calculate_enhanced_alerts cfg now w m l).2.1 =
      (if (check_bora_pattern cfg w).1 then [boraReason cfg w] else []) ++
      [marineReason cfg m] ++
      (if lightningHit cfg now l then [lightningReason cfg now l] else []) ++
      (if thermalHit cfg w then [thermalReason w] else []) := by
  have hne : marineAlerts cfg m ≠ [] := (marineAlerts_ne_nil_iff cfg m).2 h
  obtain ⟨d, hd, -⟩ := h
  have hm : marineHit cfg m = true := by
    simp [marineHit, List.ne_nil_of_mem hd, hne]
  constructor
  · rw [calc_score_eq]
    unfold rawScore
    rw [hm]
    simp
  · rw [calc_reasons_eq, hm]
    simp

/-- Witness for C9: two marine readings, each breaching both thresholds
(four fragments in total), still add exactly 25 points and a single MARINE
reason. -/
theorem C9_marine_adds_25_once_witness :
    (∃ d ∈ [marineSampleA, marineSampleB],
      d.wave_period < defaultConfig.WAVE_PERIOD_THRESHOLD ∨
      d.wave_height > defaultConfig.WAVE_HEIGHT_THRESHOLD) ∧
    ((calculate_enhanced_alerts defaultConfig 0 [] [marineSampleA, marineSampleB] []).1 =
      min ((if (check_bora_pattern defaultConfig []).1 then 60 else 0) + 25 +
        (if lightningHit defaultConfig 0 [] then 30 else 0) +
        (if thermalHit defaultConfig [] then 15 else 0) +
        calculate_traditional_patterns defaultConfig []) 100 ∧
     (calculate_enhanced_alerts defaultConfig 0 [] [marineSampleA, marineSampleB] []).2.1 =
      (if (check_bora_pattern defaultConfig []).1 then [boraReason defaultConfig []] else []) ++
      [marineReason defaultConfig [marineSampleA, marineSampleB]] ++
      (if lightningHit defaultConfig 0 [] then [lightningReason defaultConfig 0 []] else []) ++
      (if thermalHit defaultConfig [] then [thermalReason []] else [])) := by
  have hp : ∃ d ∈ [marineSampleA, marineSampleB],
      d.wave_period < defaultConfig.WAVE_PERIOD_THRESHOLD ∨
      d.wave_height > defaultConfig.WAVE_HEIGHT_THRESHOLD :=
    ⟨marineSampleA, by simp, Or.inl (by norm_num [marineSampleA, defaultConfig])⟩
  exact ⟨hp, C9_marine_adds_25_once defaultConfig 0 [] [marineSampleA, marineSampleB] [] hp⟩

/-- A prefix test survives extending the scanned list on the right. -/
theorem hasPre_append (sub : List Char) :
    ∀ (s t : List Char), hasPre sub s = true → hasPre sub (s ++ t) = true := by
  induction sub with
  | nil => intro s t _; simp [hasPre]
  | cons a as ih =>
    intro s t h
    cases s with
    | nil => simp [hasPre] at h
    | cons b bs =>
      simp only [hasPre, Bool.and_eq_true] at h ⊢
      exact ⟨h.1, ih bs t h.2⟩

/-- A substring of `s` is a substring of `s ++ t`. -/
theorem hasSub_append_left (sub : List Char) :
    ∀ (s t : List Char), hasSub sub s = true → hasSub sub (s ++ t) = true := by
  intro s
  induction s with
  | nil =>
    intro t h
    simp only [hasSub] at h
    cases sub with
    | nil => cases t <;> simp [hasSub, hasPre]
    | cons a as => simp [hasPre] at h
  | cons b bs ih =>
    intro t h
    simp only [hasSub, Bool.or_eq_true] at h ⊢
    rcases h with h | h
    · exact Or.inl (hasPre_append sub (b :: bs) t h)
    · exact Or.inr (ih t h)

/-- Every character of a matched prefix occurs in the scanned list. -/
theorem mem_of_hasPre (sub : List Char) :
    ∀ s : List Char, hasPre sub s = true → ∀ c ∈ sub, c ∈ s := by
  induction sub with
  | nil => intro s _ c hc; simp at hc
  | cons a as ih =>
    intro s h c hc
    cases s with
    | nil => simp [hasPre] at h
    | cons b bs =>
      simp only [hasPre, Bool.and_eq_true, decide_eq_true_eq] at h
      rcases List.mem_cons.1 hc with rfl | hc'
      · simp [h.1]
      · exact List.mem_cons_of_mem b (ih bs h.2 c hc')

/-- Every character of a matched substring occurs in the scanned list. -/
theorem mem_of_hasSub (sub : List Char) :
    ∀ s : List Char, hasSub sub s = true → ∀ c ∈ sub, c ∈ s := by
  intro s
  induction s with
  | nil =>
    intro h c hc
    simp only [hasSub] at h
    cases sub with
    | nil => simp at hc
    | cons a as => simp [hasPre] at h
  | cons b bs ih =>
    intro h c hc
    simp only [hasSub, Bool.or_eq_true] at h
    rcases h with h | h
    · exact mem_of_hasPre sub (b :: bs) h c hc
    · exact List.mem_cons_of_mem b (ih h c hc)

/-- Digit characters have code points below 64. -/
theorem pyDigit_toNat_lt (d : ℕ) : (pyDigit d).toNat < 64 := by
  unfold pyDigit
  split <;> decide

/-- Every character emitted by the digit renderer has code point below 64. -/
theorem mem_natDigitsAux (fuel : ℕ) :
    ∀ (n : ℕ) (c : Char), c ∈ natDigitsAux fuel n → c.toNat < 64 := by
  induction fuel with
  | zero => intro n c hc; simp [natDigitsAux] at hc
  | succ fuel ih =>
    intro n c hc
    simp only [natDigitsAux] at hc
    split at hc
    · rcases List.mem_singleton.1 hc with rfl
      exact pyDigit_toNat_lt n
    · rcases List.mem_append.1 hc with h | h
      · exact ih (n / 10) c h
      · rcases List.mem_singleton.1 h with rfl
        exact pyDigit_toNat_lt (n % 10)

/-- Every character of a one-decimal rendering (sign, digits, dot) has code point below 64. -/
theorem mem_fmt1 (x : ℚ) (c : Char) : c ∈ (fmt1 x).data → c.toNat < 64 := by
  intro hc
  simp only [fmt1, String.data_append] at hc
  rcases List.mem_append.1 hc with h | h
  rcases List.mem_append.1 h with h' | h'
  rcases List.mem_append.1 h' with h'' | h''
  · split at h'' <;> simp_all
  · exact mem_natDigitsAux _ _ c h''
  · simp only [List.mem_singleton] at h'
    subst h'
    decide
  · exact mem_natDigitsAux _ _ c h
/-- The marine reason always contains the substring MARINE. -/
theorem strIn_MARINE_marineReason (cfg : Configuration) (m : List MarineData) :
    strIn "MARINE" (marineReason cfg m) = true := by
  unfold strIn marineReason
  rw [String.data_append]
  exact hasSub_append_left _ _ _ (by decide)

/-- The lightning reason always contains the substring LIGHTNING. -/
theorem strIn_LIGHTNING_lightningReason (cfg : Configuration) (now : ℚ)
    (l : List LightningData) :
    strIn "LIGHTNING" (lightningReason cfg now l) = true := by
  unfold strIn lightningReason
  simp only [String.data_append, List.append_assoc]
  exact hasSub_append_left _ _ _ (by decide)

/-- The thermal reason never mentions Gubbio or Fabriano: its fixed text has no uppercase G or F and its numeric parts are sign, digits and dot only. -/
theorem thermal_no_eta_towns (w : List WeatherData) :
    (strIn "Gubbio" (thermalReason w) || strIn "Fabriano" (thermalReason w)) = false := by
  have hmem : ∀ c : Char, c ∈ (thermalReason w).data → c ≠ 'G' ∧ c ≠ 'F' := by
    intro c hc
    simp only [thermalReason, String.data_append, List.mem_append] at hc
    rcases hc with ((((((h | h) | h) | h) | h) | h) | h) <;>
      first
      | (constructor <;> rintro rfl <;> revert h <;> decide)
      | (have hlt := mem_fmt1 _ c h
         constructor <;> rintro rfl <;> exact absurd hlt (by decide))
  apply Bool.or_eq_false_iff.2
  constructor <;> rw [Bool.eq_false_iff] <;> intro h
  · exact (hmem 'G' (mem_of_hasSub _ _ h 'G' (by decide))).1 rfl
  · exact (hmem 'F' (mem_of_hasSub _ _ h 'F' (by decide))).2 rfl

/-- Claim C10: the 1-2 hours ETA bucket is unreachable from engine-generated reasons: with the Bora flag produced by the same inputs, `get_enhanced_eta` never returns it, because the marine reason is caught by the earlier MARINE branch, the lightning reason by the LIGHTNING branch, and the remaining generated reasons never contain Gubbio or Fabriano. -/
theorem C10_eta_bucket_unreachable (cfg : Configuration) (now : ℚ)
    (w : List WeatherData) (m : List MarineData) (l : List LightningData) :
    get_enhanced_eta (calculate_enhanced_alerts cfg now w m l).2.1
      (check_bora_pattern cfg w).1 ≠ "1-2 hours" := by
  by_cases hb : (check_bora_pattern cfg w).1 = true
  · simp [get_enhanced_eta, hb]
  · rw [Bool.not_eq_true] at hb
    have hreasons := calc_reasons_eq cfg now w m l
    rw [hb] at hreasons
    simp only [Bool.false_eq_true, if_false, List.nil_append] at hreasons
    by_cases hL : ((calculate_enhanced_alerts cfg now w m l).2.1.any
        (fun reason => strIn "LIGHTNING" reason)) = true
    · simp [get_enhanced_eta, hb, hL]
    · by_cases hM : ((calculate_enhanced_alerts cfg now w m l).2.1.any
          (fun reason => strIn "MARINE" reason)) = true
      · simp [get_enhanced_eta, hb, hL, hM]
      · have hG : ((calculate_enhanced_alerts cfg now w m l).2.1.any
            (fun reason => strIn "Gubbio" reason || strIn "Fabriano" reason)) = false := by
          rw [List.any_eq_false]
          intro r hr
          rw [hreasons] at hr
          rcases List.mem_append.1 hr with hr1 | hth
          rcases List.mem_append.1 hr1 with hmar | hlig
          · exfalso
            rw [Bool.not_eq_true, List.any_eq_false] at hM
            have hrm : r = marineReason cfg m := by
              by_cases hmh : marineHit cfg m = true <;> simp [hmh] at hmar
              exact hmar
            exact (hM r (by rw [hreasons]; exact List.mem_append.2 (Or.inl
              (List.mem_append.2 (Or.inl hmar))))) (by
                rw [hrm]; exact strIn_MARINE_marineReason cfg m)
          · exfalso
            rw [Bool.not_eq_true, List.any_eq_false] at hL
            have hrl : r = lightningReason cfg now l := by
              by_cases hlh : lightningHit cfg now l = true <;> simp [hlh] at hlig
              exact hlig
            exact (hL r (by rw [hreasons]; exact List.mem_append.2 (Or.inl
              (List.mem_append.2 (Or.inr hlig))))) (by
                rw [hrl]; exact strIn_LIGHTNING_lightningReason cfg now l)
          · have hrt : r = thermalReason w := by
              by_cases hth' : thermalHit cfg w = true <;> simp [hth'] at hth
              exact hth
            rw [hrt]
            simp [thermal_no_eta_towns w]
        simp [get_enhanced_eta, hb, hL, hM, hG]
end StormRadar
